import Mathlib

set_option maxHeartbeats 1000000

/-!
Shallow embedding of the mapper node
(src/comp313p_mapper/src/comp313p_mapper/mapper_node.py).

Python floats are modelled as real numbers; the occupancy-grid cell
values (the floats 0, 0.5 and 1 only) are modelled as rationals so that
the grid-update logic is executable.  A raised-and-uncaught Python
exception is modelled by an `Except`-style error value that carries the
state mutated so far (Python mutates the grids in place, so changes made
before an exception persist).

Two pieces of this repository are imported by mapper_node.py but are not
under src/: the OccupancyGrid class (from the
comp313p_reactive_planner_controller package) and the bresenhamalgorithm
module.  Those two are modelled from the spec; every definition doing so
says it in its doc comment.  Everything else is translated from
mapper_node.py itself.
-/

/-- The cell-state float 0.5 (Unknown) that mapper_node.py compares
against and that the main grid is initialised with, as the rational 1/2
in reduced form (so that grid computations reduce in the kernel). -/
def cellUnknown : ℚ := ⟨1, 2, by decide, Nat.coprime_one_left 2⟩

/-- Decidable equality for the Except values the embedding returns (used
to evaluate the model on concrete inputs). -/
instance exceptDecEq {e a : Type} [DecidableEq e] [DecidableEq a] : DecidableEq (Except e a) :=
  fun x y =>
  match x, y with
  | Except.error e1, Except.error e2 =>
    if h : e1 = e2 then Decidable.isTrue (by rw [h])
    else Decidable.isFalse (fun c => by cases c; exact h rfl)
  | Except.ok a1, Except.ok a2 =>
    if h : a1 = a2 then Decidable.isTrue (by rw [h])
    else Decidable.isFalse (fun c => by cases c; exact h rfl)
  | Except.error _, Except.ok _ => Decidable.isFalse (fun c => by cases c)
  | Except.ok _, Except.error _ => Decidable.isFalse (fun c => by cases c)

/-- A geometry_msgs/Twist message, reduced to the two fields the node
reads: linear.x and angular.z. -/
structure TwistMsg where
  linearX : ℝ
  angularZ : ℝ

/-- The odometry snapshot used by predictPose: position, the yaw angle
theta that the pose quaternion encodes (tf.transformations'
euler_from_quaternion, an external library, is modelled as the
extraction of that yaw), and the header timestamp in seconds. -/
structure OdomMsg where
  x : ℝ
  y : ℝ
  theta : ℝ
  stamp : ℝ

/-- A sensor_msgs/LaserScan message, reduced to the fields the node
reads. -/
structure LaserScan where
  angle_min : ℝ
  angle_max : ℝ
  angle_increment : ℝ
  range_min : ℝ
  range_max : ℝ
  ranges : List ℝ
  stamp : ℝ

/-- Modelled from the spec: the OccupancyGrid class lives in the
comp313p_reactive_planner_controller package, which is not under src/.
Spec section 3 gives the data model (width x height cell states in
\x7b0.5, 0, 1\x7d, a resolution, an integer scale, and the world-to-cell
map cell = floor((world - origin) / (resolution * scale))); section 4.1
gives the contract of getCell / setCell / worldToCell / clear.  The cell
array is stored row-major. -/
structure OccupancyGrid where
  widthInCells : Nat
  heightInCells : Nat
  resolution : ℝ
  scale : ℝ
  originX : ℝ
  originY : ℝ
  data : List ℚ

/-- Row-major index of a cell. -/
def OccupancyGrid.cellIndex (g : OccupancyGrid) (x y : Int) : Nat :=
  y.toNat * g.widthInCells + x.toNat

/-- Spec section 4.1: coordinates are valid on [0,width) x [0,height). -/
def OccupancyGrid.inBounds (g : OccupancyGrid) (x y : Int) : Prop :=
  0 ≤ x ∧ x < (g.widthInCells : Int) ∧ 0 ≤ y ∧ y < (g.heightInCells : Int)

instance (g : OccupancyGrid) (x y : Int) : Decidable (g.inBounds x y) := by
  unfold OccupancyGrid.inBounds
  infer_instance

/-- Modelled from the spec (section 4.1): getCell fails with OutOfBounds
(Python: raises IndexError) outside the grid extent. -/
def OccupancyGrid.getCell (g : OccupancyGrid) (x y : Int) : Except Unit ℚ :=
  if g.inBounds x y then Except.ok (g.data.getD (g.cellIndex x y) 0) else Except.error ()

/-- Modelled from the spec (section 4.1): setCell has the same bounds
contract as getCell and no other precondition. -/
def OccupancyGrid.setCell (g : OccupancyGrid) (x y : Int) (v : ℚ) : Except Unit OccupancyGrid :=
  if g.inBounds x y then
    Except.ok { g with data := g.data.set (g.cellIndex x y) v }
  else Except.error ()

/-- Modelled from the spec (section 4.1): clear resets every cell. -/
def OccupancyGrid.clearMap (g : OccupancyGrid) (v : ℚ) : OccupancyGrid :=
  { g with data := List.replicate g.data.length v }

/-- Modelled from the spec (sections 3 and 4.1): the world-to-cell
transform, a floor of the affine transform; it never fails and may
return out-of-bounds coordinates. -/
noncomputable def OccupancyGrid.getCellCoordinatesFromWorldCoordinates
    (g : OccupancyGrid) (p : ℝ × ℝ) : Int × Int :=
  (⌊(p.1 - g.originX) / (g.resolution * g.scale)⌋,
   ⌊(p.2 - g.originY) / (g.resolution * g.scale)⌋)

/-- The i-th cell of the modelled digital line: the straight segment
from a to a + (dx, dy) sampled at n + 1 points with rounding to the
nearest cell (Int.ediv by the positive 2 * n is a floor). -/
def bresenhamCell (a : Int × Int) (dx dy : Int) (n : Nat) (i : Nat) : Int × Int :=
  (a.1 + Int.ediv (2 * (i : Int) * dx + (n : Int)) (2 * (n : Int)),
   a.2 + Int.ediv (2 * (i : Int) * dy + (n : Int)) (2 * (n : Int)))

/-- Modelled from the spec: the bresenhamalgorithm module imported by
mapper_node.py is not under src/.  Spec section 4.2 requires an integer
digital-line rasterization visiting, in order, every cell between the
two endpoint cells, and requires the path ray_trace returns to run from
the near cell to the far cell; since ray_trace passes its arguments as
(endPoint, startPoint), the module's path is modelled as running from
the second argument to the first.  bresenhamPath a b is that digital
line from a to b. -/
def bresenhamPath (a b : Int × Int) : List (Int × Int) :=
  let dx := b.1 - a.1
  let dy := b.2 - a.2
  let n : Nat := max dx.natAbs dy.natAbs
  (List.range (n + 1)).map (bresenhamCell a dx dy n)

/-- The three grids the node owns: the main map, the delta map cleared
at the start of each parseScan, and the visualization delta map. -/
structure MapperGrids where
  occupancyGrid : OccupancyGrid
  deltaOccupancyGrid : OccupancyGrid
  showDeltaOccupancyGrid : OccupancyGrid

/-- mapper_node.py line 277 (ray_trace): cell path between the point at
range_min along the ray and the point at the detected range, through the
world-to-cell transform of the main grid.  The call
bresenham(endPoint, startPoint) is modelled by bresenhamPath startPoint
endPoint (see bresenhamPath's doc comment). -/
noncomputable def ray_trace (grid : OccupancyGrid) (dist x y angle : ℝ)
    (scanmsg : LaserScan) : List (Int × Int) :=
  let startPoint := grid.getCellCoordinatesFromWorldCoordinates
    (Real.cos angle * scanmsg.range_min + x, Real.sin angle * scanmsg.range_min + y)
  let endPoint := grid.getCellCoordinatesFromWorldCoordinates
    (Real.cos angle * dist + x, Real.sin angle * dist + y)
  bresenhamPath startPoint endPoint

/-- mapper_node.py lines 149-186 (predictPose), as a function of the
snapshotted odometry and twist.  The first branch (|angular.z| < 1e-6)
is lines 172-174 plus lines 182-186.  The else branch (lines 176-180)
references the unbound names sin and cos (only the math module is
imported, and the branch does not qualify them), so reaching it raises a
NameError, modelled as an error value. -/
noncomputable def predictPose (odom : OdomMsg) (twist : TwistMsg) (predictTime : ℝ) :
    Except Unit (ℝ × ℝ × ℝ × Bool) :=
  let dT := predictTime - odom.stamp
  let theta := odom.theta
  if |twist.angularZ| < 1e-6 then
    Except.ok (odom.x + dT * twist.linearX * Real.cos theta,
               odom.y + dT * twist.linearX * Real.sin theta,
               theta + twist.angularZ * dT,
               decide (|twist.linearX| > 4))
  else
    Except.error ()

/-- mapper_node.py lines 243-257: one iteration of the traversal loop
body (the try block).  Result: (grids, gridHasChanged, breakOut).  An
IndexError raised by any access in the body is caught by the except
handler, which logs and continues with the next point; mutations made
before the error persist.  The two getCell calls on the same point in
the source return the same value and are modelled by one call. -/
def rayStep (g : MapperGrids) (changed : Bool) (p : Int × Int) :
    MapperGrids × Bool × Bool :=
  match g.occupancyGrid.getCell p.1 p.2 with
  | Except.error _ => (g, changed, false)
  | Except.ok c =>
    if c > cellUnknown then (g, changed, true)
    else if c = cellUnknown then
      match g.occupancyGrid.setCell p.1 p.2 0 with
      | Except.error _ => (g, changed, false)
      | Except.ok og =>
        let g1 : MapperGrids := { g with occupancyGrid := og }
        match g1.deltaOccupancyGrid.setCell p.1 p.2 1 with
        | Except.error _ => (g1, changed, false)
        | Except.ok dg =>
          let g2 : MapperGrids := { g1 with deltaOccupancyGrid := dg }
          match g2.showDeltaOccupancyGrid.setCell p.1 p.2 1 with
          | Except.error _ => (g2, changed, false)
          | Except.ok sg => ({ g2 with showDeltaOccupancyGrid := sg }, true, false)
    else (g, changed, false)

/-- mapper_node.py lines 242-257: the for-loop over the points of a ray
path.  Result: (grids, gridHasChanged, traversedToEnd). -/
def traverseRay : MapperGrids → Bool → List (Int × Int) → MapperGrids × Bool × Bool
  | g, changed, [] => (g, changed, true)
  | g, changed, p :: rest =>
    let s := rayStep g changed p
    if s.2.2 then (s.1, s.2.1, false) else traverseRay s.1 s.2.1 rest

/-- mapper_node.py lines 267-273: the occupied-marking of the path's end
cell.  This code is not inside a try/except, so an IndexError from
getCell here propagates and aborts the scan.  Result:
(grids, gridHasChanged, uncaughtError). -/
def markEnd (g : MapperGrids) (changed : Bool) (p : Int × Int) :
    MapperGrids × Bool × Bool :=
  match g.occupancyGrid.getCell p.1 p.2 with
  | Except.error _ => (g, changed, true)
  | Except.ok c =>
    if c < 1 then
      match g.occupancyGrid.setCell p.1 p.2 1 with
      | Except.error _ => (g, changed, true)
      | Except.ok og =>
        let g1 : MapperGrids := { g with occupancyGrid := og }
        match g1.deltaOccupancyGrid.setCell p.1 p.2 1 with
        | Except.error _ => (g1, changed, true)
        | Except.ok dg =>
          let g2 : MapperGrids := { g1 with deltaOccupancyGrid := dg }
          match g2.showDeltaOccupancyGrid.setCell p.1 p.2 1 with
          | Except.error _ => (g2, changed, true)
          | Except.ok sg => ({ g2 with showDeltaOccupancyGrid := sg }, true, false)
    else (g, changed, false)

/-- mapper_node.py lines 234-273: processing of one ray path, the empty
check, the traversal and the end-cell marking.  Result:
(grids, gridHasChanged, uncaughtError). -/
def processRay (g : MapperGrids) (changed : Bool) (between : List (Int × Int))
    (rayEndsOnObject : Bool) : MapperGrids × Bool × Bool :=
  if between.isEmpty then (g, changed, false)
  else
    let t := traverseRay g changed between
    if t.2.2 && rayEndsOnObject then
      match between.getLast? with
      | none => (t.1, t.2.1, false)
      | some lastPoint => markEnd t.1 t.2.1 lastPoint
    else (t.1, t.2.1, false)

/-- mapper_node.py lines 208-273: the loop over ray indices.  Accessing
msg.ranges out of range raises an uncaught IndexError.  Result:
(grids, gridHasChanged, uncaughtError). -/
noncomputable def parseScanRays (msg : LaserScan) (x y theta : ℝ) :
    List Nat → MapperGrids → Bool → MapperGrids × Bool × Bool
  | [], g, changed => (g, changed, false)
  | ii :: rest, g, changed =>
    match msg.ranges.get? ii with
    | none => (g, changed, true)
    | some detectedRange =>
      if detectedRange ≤ msg.range_min then parseScanRays msg x y theta rest g changed
      else
        let rayEndsOnObject : Bool := if detectedRange ≥ msg.range_max then false else true
        let dist : ℝ := if detectedRange ≥ msg.range_max then msg.range_max else detectedRange
        let angle := msg.angle_min + msg.angle_increment * (ii : ℝ) + theta
        let between := ray_trace g.occupancyGrid dist x y angle msg
        let r := processRay g changed between rayEndsOnObject
        if r.2.2 then r else parseScanRays msg x y theta rest r.1 r.2.1

/-- mapper_node.py lines 188-275 (parseScan), as a function of the grids
and the snapshotted odometry and twist.  The first component is the
state of the three grids when the call ends (normally or not); the
second is Except.error () when an uncaught exception aborts the scan,
Except.ok none for the bare return on the too-fast branch (Python
returns None there), and Except.ok (some gridHasChanged) otherwise. -/
noncomputable def parseScan (g : MapperGrids) (odom : OdomMsg) (twist : TwistMsg)
    (msg : LaserScan) : MapperGrids × Except Unit (Option Bool) :=
  match predictPose odom twist msg.stamp with
  | Except.error _ => (g, Except.error ())
  | Except.ok (x, y, theta, tooFast) =>
    if tooFast then (g, Except.ok none)
    else
      let g0 : MapperGrids := { g with deltaOccupancyGrid := g.deltaOccupancyGrid.clearMap 0 }
      let n : Nat := (⌊(msg.angle_max - msg.angle_min) / msg.angle_increment⌋).toNat
      let r := parseScanRays msg x y theta (List.range n) g0 false
      if r.2.2 then (r.1, Except.error ()) else (r.1, Except.ok (some r.2.1))

/-- The node state: the three grids plus the subscriber-facing fields
set up in __init__ (lines 72-90). -/
structure MapperNodeState where
  grids : MapperGrids
  mostRecentOdometry : OdomMsg
  mostRecentTwist : TwistMsg
  mostRecentVelocity : Option TwistMsg
  noOdometryReceived : Bool
  noTwistReceived : Bool
  enableMapping : Bool
  updateVisualisation : Bool

/-- mapper_node.py lines 94-98. -/
def odometryCallback (st : MapperNodeState) (msg : OdomMsg) : MapperNodeState :=
  { st with mostRecentOdometry := msg, noOdometryReceived := false }

/-- mapper_node.py lines 100-104: the handler stores the message in the
attribute mostRecentVelocity (not in mostRecentTwist, the attribute
initialised in __init__ and read by predictPose; mostRecentVelocity does
not exist before the first call, modelled by an Option). -/
def twistCallback (st : MapperNodeState) (msg : TwistMsg) : MapperNodeState :=
  { st with mostRecentVelocity := some msg, noTwistReceived := false }

/-- The MapUpdate message as filled in by laserScanCallback
(lines 131-138): the scale, the extents and deep copies of the main and
delta grids. -/
structure MapUpdateMsg where
  scale : ℝ
  extentInCells : Nat × Nat
  occupancyGrid : OccupancyGrid
  deltaOccupancyGrid : OccupancyGrid

/-- mapper_node.py lines 111-141 (laserScanCallback).  Returns the new
node state and the published MapUpdate, if any.  The test on line 125 is
the Python identity test gridHasChanged is False, which only the value
False passes: when parseScan returns None (too fast) the callback falls
through and publishes.  If parseScan raises, the exception propagates
out of the callback and nothing is published; the grid mutations made
before the exception persist. -/
noncomputable def laserScanCallback (st : MapperNodeState) (msg : LaserScan) :
    MapperNodeState × Option MapUpdateMsg :=
  if st.enableMapping = false then (st, none)
  else if st.noOdometryReceived || st.noTwistReceived then (st, none)
  else
    let pr := parseScan st.grids st.mostRecentOdometry st.mostRecentTwist msg
    let st1 : MapperNodeState := { st with grids := pr.1 }
    match pr.2 with
    | Except.error _ => (st1, none)
    | Except.ok gridHasChanged =>
      if gridHasChanged = some false then (st1, none)
      else
        let st2 : MapperNodeState := { st1 with updateVisualisation := true }
        (st2, some { scale := st2.grids.occupancyGrid.scale,
                     extentInCells := (st2.grids.occupancyGrid.widthInCells,
                                       st2.grids.occupancyGrid.heightInCells),
                     occupancyGrid := st2.grids.occupancyGrid,
                     deltaOccupancyGrid := st2.grids.deltaOccupancyGrid })

/-- A sequence of scan ingestions, each with the odometry and twist
snapshot in force when it arrives; the grids carry over from one scan to
the next exactly as parseScan leaves them (also after an abort). -/
noncomputable def ingestAll (g : MapperGrids) :
    List (OdomMsg × TwistMsg × LaserScan) → MapperGrids
  | [] => g
  | s :: rest => ingestAll (parseScan g s.1 s.2.1 s.2.2).1 rest

/-- The state transitions parseScan performs on a single cell of the
main grid: unchanged, Unknown (0.5) to Free (0), or below-Occupied to
Occupied (1). -/
def cellTransition (a b : ℚ) : Prop :=
  a = b ∨ (a = cellUnknown ∧ b = 0) ∨ (a < 1 ∧ b = 1)

/-- Relation between the main-grid cell arrays before and after an
operation: same length, and every cell moved along cellTransition. -/
def dataMono (d d' : List ℚ) : Prop :=
  d'.length = d.length ∧ ∀ i : Nat, cellTransition (d.getD i 0) (d'.getD i 0)

/-- Two grids equal except possibly in their cell array. -/
def sameShape (a b : OccupancyGrid) : Prop :=
  a.widthInCells = b.widthInCells ∧ a.heightInCells = b.heightInCells ∧
  a.resolution = b.resolution ∧ a.scale = b.scale ∧
  a.originX = b.originX ∧ a.originY = b.originY

/-- The three grids of the second state agree with those of the first in
everything except possibly their cell values (dimensions, transform
parameters and cell-array lengths are preserved). -/
def gridsShapeEq (a b : MapperGrids) : Prop :=
  sameShape a.occupancyGrid b.occupancyGrid ∧
  sameShape a.deltaOccupancyGrid b.deltaOccupancyGrid ∧
  sameShape a.showDeltaOccupancyGrid b.showDeltaOccupancyGrid ∧
  b.occupancyGrid.data.length = a.occupancyGrid.data.length ∧
  b.deltaOccupancyGrid.data.length = a.deltaOccupancyGrid.data.length ∧
  b.showDeltaOccupancyGrid.data.length = a.showDeltaOccupancyGrid.data.length

/-- The cell array has exactly width * height entries (true of every
grid the node constructs). -/
def OccupancyGrid.Wellformed (g : OccupancyGrid) : Prop :=
  g.data.length = g.widthInCells * g.heightInCells

/-- The three grids are wellformed and have the dimensions the node
gives them: all equal (lines 46-59 construct all three from the same
map info). -/
def MapperGrids.Wellformed (gs : MapperGrids) : Prop :=
  gs.occupancyGrid.Wellformed ∧ gs.deltaOccupancyGrid.Wellformed ∧
  gs.showDeltaOccupancyGrid.Wellformed ∧
  gs.deltaOccupancyGrid.widthInCells = gs.occupancyGrid.widthInCells ∧
  gs.deltaOccupancyGrid.heightInCells = gs.occupancyGrid.heightInCells ∧
  gs.showDeltaOccupancyGrid.widthInCells = gs.occupancyGrid.widthInCells ∧
  gs.showDeltaOccupancyGrid.heightInCells = gs.occupancyGrid.heightInCells

/-- The 10 x 10 all-Unknown main grid of the end-to-end scenario
(spec section 8), with resolution 1, scale 1 and origin (0, 0). -/
noncomputable def scenarioMainGrid : OccupancyGrid :=
  ⟨10, 10, 1, 1, 0, 0, List.replicate 100 cellUnknown⟩

/-- The matching all-zero delta grid of the end-to-end scenario. -/
noncomputable def scenarioDeltaGrid : OccupancyGrid :=
  ⟨10, 10, 1, 1, 0, 0, List.replicate 100 0⟩

/-- The grid triple of the end-to-end scenario. -/
noncomputable def scenarioGrids : MapperGrids :=
  ⟨scenarioMainGrid, scenarioDeltaGrid, scenarioDeltaGrid⟩

/-- The scan of the end-to-end scenario: one valid ray (angle window
[0, 1) sampled at increment 1), detected range 2.0, range_min 0.5,
range_max 10, captured at time 0. -/
noncomputable def scenarioScan : LaserScan := ⟨0, 1, 1, 1/2, 10, [2], 0⟩

/-- The pose (0, 0, 0) at time 0. -/
noncomputable def scenarioOdom : OdomMsg := ⟨0, 0, 0, 0⟩

/-- A zero twist (also the default Twist() that __init__ stores in
mostRecentTwist). -/
noncomputable def stoppedTwist : TwistMsg := ⟨0, 0⟩

/-- A 2 x 2 all-Unknown main grid (used to exercise out-of-bounds ray
cells). -/
noncomputable def smallMainGrid : OccupancyGrid :=
  ⟨2, 2, 1, 1, 0, 0, List.replicate 4 cellUnknown⟩

/-- The matching 2 x 2 all-zero delta grid. -/
noncomputable def smallDeltaGrid : OccupancyGrid :=
  ⟨2, 2, 1, 1, 0, 0, List.replicate 4 0⟩

/-- The 2 x 2 grid triple. -/
noncomputable def smallGrids : MapperGrids :=
  ⟨smallMainGrid, smallDeltaGrid, smallDeltaGrid⟩

/-- A scan with one ray of detected range 5 (below range_max 10, so the
ray ends on an object), whose end cell (5, 0) lies outside a 2 x 2
grid. -/
noncomputable def outOfRangeScan : LaserScan := ⟨0, 1, 1, 1/2, 10, [5], 0⟩

/-- A twist exceeding the 4 m/s speed threshold, not turning. -/
noncomputable def fastTwist : TwistMsg := ⟨5, 0⟩

/-- A twist exceeding the speed threshold while turning (|angular.z| is
at least 1e-6, so predictPose takes the arc branch). -/
noncomputable def fastTurningTwist : TwistMsg := ⟨5, 1⟩

/-- A turning twist with moderate speed. -/
noncomputable def turningTwist : TwistMsg := ⟨1, 1⟩

/-- A twist just below the speed threshold, not turning. -/
noncomputable def slowTwist : TwistMsg := ⟨39/10, 0⟩

/-- A node state that is fully enabled (mapping on, odometry and twist
both received) whose twist snapshot is too fast. -/
noncomputable def fastState : MapperNodeState :=
  ⟨smallGrids, scenarioOdom, fastTwist, none, false, false, true, false⟩

/-- A node state that has not yet received odometry (the gating case of
laserScanCallback). -/
noncomputable def ungatedlessState : MapperNodeState :=
  ⟨smallGrids, scenarioOdom, stoppedTwist, none, true, true, true, false⟩

/-- A scan whose angle window is empty (angle_max = angle_min), so the
ray loop runs zero iterations. -/
noncomputable def emptyScan : LaserScan := ⟨0, 0, 1, 1/2, 10, [], 0⟩

/-- A 1 x 1 main grid whose single cell is Occupied. -/
noncomputable def occupiedMainGrid : OccupancyGrid := ⟨1, 1, 1, 1, 0, 0, [1]⟩

/-- The matching 1 x 1 zero delta grid. -/
noncomputable def tinyDeltaGrid : OccupancyGrid := ⟨1, 1, 1, 1, 0, 0, [0]⟩

/-- The grid triple with the occupied 1 x 1 main grid. -/
noncomputable def occupiedGrids : MapperGrids :=
  ⟨occupiedMainGrid, tinyDeltaGrid, tinyDeltaGrid⟩

/-- Evaluating getD after set: the written value at the written index
when it is in range, the old value everywhere else. -/
theorem getD_set (l : List ℚ) (i j : Nat) (v : ℚ) :
    (l.set i v).getD j 0 = if i = j ∧ j < l.length then v else l.getD j 0 := by
  induction l generalizing i j with
  | nil => simp
  | cons a t ih =>
    cases i with
    | zero =>
      cases j with
      | zero => simp
      | succ m => simp [List.getD]
    | succ n =>
      cases j with
      | zero => simp [List.getD]
      | succ m =>
        simp only [List.set, List.getD_cons_succ, List.length_cons, ih n m]
        by_cases h : n = m ∧ m < t.length
        · rw [if_pos h, if_pos ⟨by rw [h.1], by omega⟩]
        · rw [if_neg h, if_neg (by
            intro hc
            exact h ⟨by omega, by omega⟩)]

/-- cellUnknown is the rational one half (the float 0.5 of the
source). -/
theorem cellUnknown_eq_half : cellUnknown = 1/2 := by
  have h := Rat.num_div_den cellUnknown
  rw [show cellUnknown.num = 1 from rfl, show cellUnknown.den = 2 from rfl] at h
  rw [← h]
  norm_num

theorem cellTransition_refl (a : ℚ) : cellTransition a a := Or.inl rfl

theorem cellTransition_trans {a b c : ℚ}
    (h1 : cellTransition a b) (h2 : cellTransition b c) : cellTransition a c := by
  rcases h1 with h1 | ⟨ha, hb⟩ | ⟨ha, hb⟩
  · rwa [h1]
  · rcases h2 with h2 | ⟨hb2, hc⟩ | ⟨hb2, hc⟩
    · rw [← h2]; exact Or.inr (Or.inl ⟨ha, hb⟩)
    · rw [hb] at hb2
      exact absurd hb2 (by decide)
    · exact Or.inr (Or.inr ⟨by rw [ha]; decide, hc⟩)
  · rcases h2 with h2 | ⟨hb2, hc⟩ | ⟨hb2, hc⟩
    · rw [← h2]; exact Or.inr (Or.inr ⟨ha, hb⟩)
    · rw [hb] at hb2
      exact absurd hb2 (by decide)
    · rw [hb] at hb2
      exact absurd hb2 (by simp)

/-- Once a cell is Occupied, cellTransition keeps it Occupied. -/
theorem cellTransition_occupied {a b : ℚ}
    (h : cellTransition a b) (ha : a = 1) : b = 1 := by
  rcases h with h | ⟨h1, _⟩ | ⟨_, h2⟩
  · rwa [← h]
  · rw [ha] at h1
    exact absurd h1.symm (by decide)
  · exact h2

/-- A cell that is currently Unknown was Unknown from the start. -/
theorem cellTransition_unknown_back {a b : ℚ}
    (h : cellTransition a b) (hb : b = cellUnknown) : a = cellUnknown := by
  rcases h with h | ⟨_, h2⟩ | ⟨_, h2⟩
  · rwa [h]
  · rw [h2] at hb
    exact absurd hb (by decide)
  · rw [h2] at hb
    exact absurd hb (by decide)

/-- A cell that is currently below Occupied was below Occupied from the
start. -/
theorem cellTransition_below_back {a b : ℚ}
    (h : cellTransition a b) (hb : b < 1) : a < 1 := by
  rcases h with h | ⟨h1, _⟩ | ⟨_, h2⟩
  · rwa [h]
  · rw [h1]; decide
  · rw [h2] at hb
    exact absurd hb (by simp)

theorem dataMono_refl (d : List ℚ) : dataMono d d :=
  ⟨rfl, fun _ => cellTransition_refl _⟩

theorem dataMono_trans {d1 d2 d3 : List ℚ}
    (h1 : dataMono d1 d2) (h2 : dataMono d2 d3) : dataMono d1 d3 :=
  ⟨h2.1.trans h1.1, fun i => cellTransition_trans (h1.2 i) (h2.2 i)⟩

/-- Writing Free into an Unknown cell is a legal transition array-wide. -/
theorem dataMono_set_unknown {d : List ℚ} {i : Nat}
    (h : d.getD i 0 = cellUnknown) : dataMono d (d.set i 0) := by
  refine ⟨List.length_set d i 0 ▸ rfl, fun j => ?_⟩
  rw [getD_set]
  by_cases hc : i = j ∧ j < d.length
  · rw [if_pos hc]
    exact Or.inr (Or.inl ⟨by rw [← hc.1]; exact h, rfl⟩)
  · rw [if_neg hc]
    exact cellTransition_refl _

/-- Writing Occupied into a below-Occupied cell is a legal transition
array-wide. -/
theorem dataMono_set_occupied {d : List ℚ} {i : Nat}
    (h : d.getD i 0 < 1) : dataMono d (d.set i 1) := by
  refine ⟨List.length_set d i 1 ▸ rfl, fun j => ?_⟩
  rw [getD_set]
  by_cases hc : i = j ∧ j < d.length
  · rw [if_pos hc]
    exact Or.inr (Or.inr ⟨by rw [← hc.1]; exact h, rfl⟩)
  · rw [if_neg hc]
    exact cellTransition_refl _

theorem sameShape_refl (a : OccupancyGrid) : sameShape a a :=
  ⟨rfl, rfl, rfl, rfl, rfl, rfl⟩

theorem sameShape_trans {a b c : OccupancyGrid}
    (h1 : sameShape a b) (h2 : sameShape b c) : sameShape a c := by
  obtain ⟨a1, a2, a3, a4, a5, a6⟩ := h1
  obtain ⟨b1, b2, b3, b4, b5, b6⟩ := h2
  exact ⟨a1.trans b1, a2.trans b2, a3.trans b3, a4.trans b4, a5.trans b5, a6.trans b6⟩

/-- Two grids of the same shape with the same cell array are equal. -/
theorem sameShape_ext {a b : OccupancyGrid}
    (h : sameShape a b) (hd : a.data = b.data) : a = b := by
  cases a
  cases b
  obtain ⟨h1, h2, h3, h4, h5, h6⟩ := h
  simp_all

theorem gridsShapeEq_refl (a : MapperGrids) : gridsShapeEq a a :=
  ⟨sameShape_refl _, sameShape_refl _, sameShape_refl _, rfl, rfl, rfl⟩

theorem gridsShapeEq_trans {a b c : MapperGrids}
    (h1 : gridsShapeEq a b) (h2 : gridsShapeEq b c) : gridsShapeEq a c :=
  ⟨sameShape_trans h1.1 h2.1, sameShape_trans h1.2.1 h2.2.1,
   sameShape_trans h1.2.2.1 h2.2.2.1, h2.2.2.2.1.trans h1.2.2.2.1,
   h2.2.2.2.2.1.trans h1.2.2.2.2.1, h2.2.2.2.2.2.trans h1.2.2.2.2.2⟩

/-- Wellformedness transfers along a shape-preserving step. -/
theorem wellformed_of_shapeEq {a b : MapperGrids}
    (h : gridsShapeEq a b) (hwf : a.Wellformed) : b.Wellformed := by
  obtain ⟨s1, s2, s3, l1, l2, l3⟩ := h
  obtain ⟨w1, w2, w3, d1, d2, d3, d4⟩ := hwf
  refine ⟨?_, ?_, ?_, ?_, ?_, ?_, ?_⟩
  · rw [OccupancyGrid.Wellformed, l1, ← s1.1, ← s1.2.1]; exact w1
  · rw [OccupancyGrid.Wellformed, l2, ← s2.1, ← s2.2.1]; exact w2
  · rw [OccupancyGrid.Wellformed, l3, ← s3.1, ← s3.2.1]; exact w3
  · rw [← s2.1, ← s1.1]; exact d1
  · rw [← s2.2.1, ← s1.2.1]; exact d2
  · rw [← s3.1, ← s1.1]; exact d3
  · rw [← s3.2.1, ← s1.2.1]; exact d4

/-- Characterization of a successful getCell. -/
theorem getCell_ok {g : OccupancyGrid} {x y : Int} {c : ℚ}
    (h : g.getCell x y = Except.ok c) :
    g.inBounds x y ∧ c = g.data.getD (g.cellIndex x y) 0 := by
  unfold OccupancyGrid.getCell at h
  split at h
  · exact ⟨by assumption, by cases h; rfl⟩
  · cases h

/-- Characterization of a failing getCell. -/
theorem getCell_error {g : OccupancyGrid} {x y : Int}
    (h : g.getCell x y = Except.error ()) : ¬ g.inBounds x y := by
  unfold OccupancyGrid.getCell at h
  split at h
  · cases h
  · assumption

/-- Characterization of a successful setCell. -/
theorem setCell_ok {g g' : OccupancyGrid} {x y : Int} {v : ℚ}
    (h : g.setCell x y v = Except.ok g') :
    g.inBounds x y ∧ g' = { g with data := g.data.set (g.cellIndex x y) v } := by
  unfold OccupancyGrid.setCell at h
  split at h
  · exact ⟨by assumption, by cases h; rfl⟩
  · cases h

/-- setCell succeeds whenever the coordinates are in bounds. -/
theorem setCell_of_inBounds {g : OccupancyGrid} {x y : Int} (v : ℚ)
    (h : g.inBounds x y) :
    g.setCell x y v = Except.ok { g with data := g.data.set (g.cellIndex x y) v } := by
  unfold OccupancyGrid.setCell
  rw [if_pos h]

/-- getCell succeeds whenever the coordinates are in bounds. -/
theorem getCell_of_inBounds {g : OccupancyGrid} {x y : Int}
    (h : g.inBounds x y) :
    g.getCell x y = Except.ok (g.data.getD (g.cellIndex x y) 0) := by
  unfold OccupancyGrid.getCell
  rw [if_pos h]

/-- In a wellformed grid, the row-major index of in-bounds coordinates
is a valid index into the cell array. -/
theorem cellIndex_lt {g : OccupancyGrid} {x y : Int}
    (hwf : g.Wellformed) (h : g.inBounds x y) :
    g.cellIndex x y < g.data.length := by
  obtain ⟨hx0, hxw, hy0, hyh⟩ := h
  rw [hwf]
  have hx : x.toNat < g.widthInCells := by omega
  have hy : y.toNat < g.heightInCells := by omega
  calc y.toNat * g.widthInCells + x.toNat
      < y.toNat * g.widthInCells + g.widthInCells := by omega
    _ = (y.toNat + 1) * g.widthInCells := by ring
    _ ≤ g.heightInCells * g.widthInCells := Nat.mul_le_mul_right _ (by omega)
    _ = g.widthInCells * g.heightInCells := Nat.mul_comm _ _

/-- setCell and clearMap preserve the shape of a grid. -/
theorem sameShape_set {g : OccupancyGrid} {x y : Int} {v : ℚ} {g' : OccupancyGrid}
    (h : g.setCell x y v = Except.ok g') : sameShape g g' := by
  rw [(setCell_ok h).2]
  exact ⟨rfl, rfl, rfl, rfl, rfl, rfl⟩

theorem length_set_grid {g : OccupancyGrid} {x y : Int} {v : ℚ} {g' : OccupancyGrid}
    (h : g.setCell x y v = Except.ok g') : g'.data.length = g.data.length := by
  rw [(setCell_ok h).2]
  exact List.length_set g.data _ v

/-- One traversal step preserves grid shapes, moves the main grid along
cellTransition only, and never resets the changed flag. -/
theorem rayStep_basic (g : MapperGrids) (changed : Bool) (p : Int × Int) :
    gridsShapeEq g (rayStep g changed p).1 ∧
    dataMono g.occupancyGrid.data (rayStep g changed p).1.occupancyGrid.data ∧
    (changed = true → (rayStep g changed p).2.1 = true) := by
  rcases hget : g.occupancyGrid.getCell p.1 p.2 with u | c
  · simp only [rayStep, hget]
    exact ⟨gridsShapeEq_refl g, dataMono_refl _, fun h => h⟩
  · by_cases h1 : c > cellUnknown
    · simp only [rayStep, hget, if_pos h1]
      exact ⟨gridsShapeEq_refl g, dataMono_refl _, fun h => h⟩
    · by_cases h2 : c = cellUnknown
      · rcases hset : g.occupancyGrid.setCell p.1 p.2 0 with u | og
        · simp only [rayStep, hget, if_neg h1, if_pos h2, hset]
          exact ⟨gridsShapeEq_refl g, dataMono_refl _, fun h => h⟩
        · have hmono : dataMono g.occupancyGrid.data og.data := by
            rw [(setCell_ok hset).2]
            exact dataMono_set_unknown (by rw [← (getCell_ok hget).2]; exact h2)
          rcases hset2 : g.deltaOccupancyGrid.setCell p.1 p.2 1 with u | dg
          · simp only [rayStep, hget, if_neg h1, if_pos h2, hset, hset2]
            exact ⟨⟨sameShape_set hset, sameShape_refl _, sameShape_refl _,
                    length_set_grid hset, rfl, rfl⟩, hmono, fun h => h⟩
          · rcases hset3 : g.showDeltaOccupancyGrid.setCell p.1 p.2 1 with u | sg
            · simp only [rayStep, hget, if_neg h1, if_pos h2, hset, hset2, hset3]
              exact ⟨⟨sameShape_set hset, sameShape_set hset2, sameShape_refl _,
                      length_set_grid hset, length_set_grid hset2, rfl⟩, hmono, fun h => h⟩
            · simp only [rayStep, hget, if_neg h1, if_pos h2, hset, hset2, hset3]
              exact ⟨⟨sameShape_set hset, sameShape_set hset2, sameShape_set hset3,
                      length_set_grid hset, length_set_grid hset2, length_set_grid hset3⟩,
                     hmono, fun _ => trivial⟩
      · simp only [rayStep, hget, if_neg h1, if_neg h2]
        exact ⟨gridsShapeEq_refl g, dataMono_refl _, fun h => h⟩

/-- The end-cell marking preserves grid shapes, moves the main grid
along cellTransition only, and never resets the changed flag. -/
theorem markEnd_basic (g : MapperGrids) (changed : Bool) (p : Int × Int) :
    gridsShapeEq g (markEnd g changed p).1 ∧
    dataMono g.occupancyGrid.data (markEnd g changed p).1.occupancyGrid.data ∧
    (changed = true → (markEnd g changed p).2.1 = true) := by
  rcases hget : g.occupancyGrid.getCell p.1 p.2 with u | c
  · simp only [markEnd, hget]
    exact ⟨gridsShapeEq_refl g, dataMono_refl _, fun h => h⟩
  · by_cases h1 : c < 1
    · rcases hset : g.occupancyGrid.setCell p.1 p.2 1 with u | og
      · simp only [markEnd, hget, if_pos h1, hset]
        exact ⟨gridsShapeEq_refl g, dataMono_refl _, fun h => h⟩
      · have hmono : dataMono g.occupancyGrid.data og.data := by
          rw [(setCell_ok hset).2]
          exact dataMono_set_occupied (by rw [← (getCell_ok hget).2]; exact h1)
        rcases hset2 : g.deltaOccupancyGrid.setCell p.1 p.2 1 with u | dg
        · simp only [markEnd, hget, if_pos h1, hset, hset2]
          exact ⟨⟨sameShape_set hset, sameShape_refl _, sameShape_refl _,
                  length_set_grid hset, rfl, rfl⟩, hmono, fun h => h⟩
        · rcases hset3 : g.showDeltaOccupancyGrid.setCell p.1 p.2 1 with u | sg
          · simp only [markEnd, hget, if_pos h1, hset, hset2, hset3]
            exact ⟨⟨sameShape_set hset, sameShape_set hset2, sameShape_refl _,
                    length_set_grid hset, length_set_grid hset2, rfl⟩, hmono, fun h => h⟩
          · simp only [markEnd, hget, if_pos h1, hset, hset2, hset3]
            exact ⟨⟨sameShape_set hset, sameShape_set hset2, sameShape_set hset3,
                    length_set_grid hset, length_set_grid hset2, length_set_grid hset3⟩,
                   hmono, fun _ => trivial⟩
    · simp only [markEnd, hget, if_neg h1]
      exact ⟨gridsShapeEq_refl g, dataMono_refl _, fun h => h⟩

/-- The ray traversal loop preserves grid shapes, moves the main grid
along cellTransition only, and never resets the changed flag. -/
theorem traverseRay_basic :
    ∀ (path : List (Int × Int)) (g : MapperGrids) (changed : Bool),
    gridsShapeEq g (traverseRay g changed path).1 ∧
    dataMono g.occupancyGrid.data (traverseRay g changed path).1.occupancyGrid.data ∧
    (changed = true → (traverseRay g changed path).2.1 = true) := by
  intro path
  induction path with
  | nil =>
    intro g changed
    exact ⟨gridsShapeEq_refl g, dataMono_refl _, fun h => h⟩
  | cons p rest ih =>
    intro g changed
    obtain ⟨hshape, hmono, hch⟩ := rayStep_basic g changed p
    cases hbrk : (rayStep g changed p).2.2 with
    | true =>
      simp only [traverseRay, hbrk, if_true]
      exact ⟨hshape, hmono, fun h => hch h⟩
    | false =>
      obtain ⟨ishape, imono, ich⟩ := ih (rayStep g changed p).1 (rayStep g changed p).2.1
      simp only [traverseRay, hbrk, if_false]
      exact ⟨gridsShapeEq_trans hshape ishape, dataMono_trans hmono imono,
             fun h => ich (hch h)⟩

/-- Whole-ray processing preserves grid shapes, moves the main grid
along cellTransition only, and never resets the changed flag. -/
theorem processRay_basic (g : MapperGrids) (changed : Bool)
    (between : List (Int × Int)) (rayEndsOnObject : Bool) :
    gridsShapeEq g (processRay g changed between rayEndsOnObject).1 ∧
    dataMono g.occupancyGrid.data
      (processRay g changed between rayEndsOnObject).1.occupancyGrid.data ∧
    (changed = true → (processRay g changed between rayEndsOnObject).2.1 = true) := by
  by_cases hempty : between.isEmpty
  · simp only [processRay, hempty, if_true]
    exact ⟨gridsShapeEq_refl g, dataMono_refl _, fun h => h⟩
  · obtain ⟨tshape, tmono, tch⟩ := traverseRay_basic between g changed
    simp only [processRay, hempty, if_false, Bool.false_eq_true]
    cases hcond : ((traverseRay g changed between).2.2 && rayEndsOnObject) with
    | false =>
      simp only [hcond, Bool.false_eq_true, if_false]
      exact ⟨tshape, tmono, fun h => tch h⟩
    | true =>
      simp only [hcond, if_true]
      rcases hlast : between.getLast? with _ | lastPoint
      · exact ⟨tshape, tmono, fun h => tch h⟩
      · obtain ⟨mshape, mmono, mch⟩ :=
          markEnd_basic (traverseRay g changed between).1
            (traverseRay g changed between).2.1 lastPoint
        exact ⟨gridsShapeEq_trans tshape mshape, dataMono_trans tmono mmono,
               fun h => mch (tch h)⟩

/-- The ray loop preserves grid shapes, moves the main grid along
cellTransition only, and never resets the changed flag. -/
theorem parseScanRays_basic (msg : LaserScan) (x y theta : ℝ) :
    ∀ (l : List Nat) (g : MapperGrids) (changed : Bool),
    gridsShapeEq g (parseScanRays msg x y theta l g changed).1 ∧
    dataMono g.occupancyGrid.data
      (parseScanRays msg x y theta l g changed).1.occupancyGrid.data ∧
    (changed = true → (parseScanRays msg x y theta l g changed).2.1 = true) := by
  intro l
  induction l with
  | nil =>
    intro g changed
    exact ⟨gridsShapeEq_refl g, dataMono_refl _, fun h => h⟩
  | cons ii rest ih =>
    intro g changed
    rcases hget : msg.ranges.get? ii with _ | detectedRange
    · simp only [parseScanRays, hget]
      exact ⟨gridsShapeEq_refl g, dataMono_refl _, fun h => h⟩
    · by_cases hmin : detectedRange ≤ msg.range_min
      · simp only [parseScanRays, hget, if_pos hmin]
        exact ih g changed
      · simp only [parseScanRays, hget, if_neg hmin]
        obtain ⟨pshape, pmono, pch⟩ := processRay_basic g changed
          (ray_trace g.occupancyGrid
            (if detectedRange ≥ msg.range_max then msg.range_max else detectedRange)
            x y (msg.angle_min + msg.angle_increment * (ii : ℝ) + theta) msg)
          (if detectedRange ≥ msg.range_max then false else true)
        cases habort : (processRay g changed
            (ray_trace g.occupancyGrid
              (if detectedRange ≥ msg.range_max then msg.range_max else detectedRange)
              x y (msg.angle_min + msg.angle_increment * (ii : ℝ) + theta) msg)
            (if detectedRange ≥ msg.range_max then false else true)).2.2 with
        | true =>
          simp only [habort, if_true]
          exact ⟨pshape, pmono, fun h => pch h⟩
        | false =>
          simp only [habort, Bool.false_eq_true, if_false]
          obtain ⟨ishape, imono, ich⟩ := ih _ _
          exact ⟨gridsShapeEq_trans pshape ishape, dataMono_trans pmono imono,
                 fun h => ich (pch h)⟩

/-- clearMap preserves the shape and length of a grid. -/
theorem clearMap_shape (g : OccupancyGrid) (v : ℚ) :
    sameShape g (g.clearMap v) ∧ (g.clearMap v).data.length = g.data.length := by
  exact ⟨⟨rfl, rfl, rfl, rfl, rfl, rfl⟩, List.length_replicate _ _⟩

/-- A parseScan call preserves grid shapes and moves the main grid along
cellTransition only (whether it completes, rejects the scan, or
aborts). -/
theorem parseScan_basic (g : MapperGrids) (odom : OdomMsg) (twist : TwistMsg)
    (msg : LaserScan) :
    gridsShapeEq g (parseScan g odom twist msg).1 ∧
    dataMono g.occupancyGrid.data (parseScan g odom twist msg).1.occupancyGrid.data := by
  rcases hp : predictPose odom twist msg.stamp with _ | q
  · simp only [parseScan, hp]
    exact ⟨gridsShapeEq_refl g, dataMono_refl _⟩
  · obtain ⟨x, y, theta, tooFast⟩ := q
    cases tooFast with
    | true =>
      simp only [parseScan, hp, if_true]
      exact ⟨gridsShapeEq_refl g, dataMono_refl _⟩
    | false =>
      have hclear : gridsShapeEq g
          { g with deltaOccupancyGrid := g.deltaOccupancyGrid.clearMap 0 } :=
        ⟨sameShape_refl _, (clearMap_shape _ 0).1, sameShape_refl _, rfl,
         (clearMap_shape _ 0).2, rfl⟩
      obtain ⟨rshape, rmono, _⟩ := parseScanRays_basic msg x y theta
        (List.range (⌊(msg.angle_max - msg.angle_min) / msg.angle_increment⌋).toNat)
        { g with deltaOccupancyGrid := g.deltaOccupancyGrid.clearMap 0 } false
      cases habort : (parseScanRays msg x y theta
          (List.range (⌊(msg.angle_max - msg.angle_min) / msg.angle_increment⌋).toNat)
          { g with deltaOccupancyGrid := g.deltaOccupancyGrid.clearMap 0 } false).2.2 with
      | true =>
        simp only [parseScan, hp, Bool.false_eq_true, if_false, habort, if_true]
        exact ⟨gridsShapeEq_trans hclear rshape, rmono⟩
      | false =>
        simp only [parseScan, hp, Bool.false_eq_true, if_false, habort]
        exact ⟨gridsShapeEq_trans hclear rshape, rmono⟩

/-- Scan-sequence ingestion moves every main-grid cell along
cellTransition only. -/
theorem ingestAll_mono :
    ∀ (scans : List (OdomMsg × TwistMsg × LaserScan)) (g : MapperGrids),
    dataMono g.occupancyGrid.data (ingestAll g scans).occupancyGrid.data := by
  intro scans
  induction scans with
  | nil => intro g; exact dataMono_refl _
  | cons s rest ih =>
    intro g
    exact dataMono_trans (parseScan_basic g s.1 s.2.1 s.2.2).2 (ih _)

/-- inBounds transfers between grids with the same dimensions. -/
theorem inBounds_of_dims {a b : OccupancyGrid}
    (hw : a.widthInCells = b.widthInCells) (hh : a.heightInCells = b.heightInCells)
    {x y : Int} (h : b.inBounds x y) : a.inBounds x y := by
  obtain ⟨h1, h2, h3, h4⟩ := h
  exact ⟨h1, by rw [hw]; exact h2, h3, by rw [hh]; exact h4⟩

/-- In a wellformed grid triple, one traversal step that reports no
change did not touch the main grid, and the incoming flag was already
false. -/
theorem rayStep_changed_false {g : MapperGrids} {changed : Bool} {p : Int × Int}
    (hwf : g.Wellformed) (h : (rayStep g changed p).2.1 = false) :
    (rayStep g changed p).1.occupancyGrid = g.occupancyGrid ∧ changed = false := by
  rcases hget : g.occupancyGrid.getCell p.1 p.2 with u | c
  · simp only [rayStep, hget] at h ⊢
    exact ⟨by trivial, h⟩
  · have hb : g.occupancyGrid.inBounds p.1 p.2 := (getCell_ok hget).1
    by_cases h1 : c > cellUnknown
    · simp only [rayStep, hget, if_pos h1] at h ⊢
      exact ⟨by trivial, h⟩
    · by_cases h2 : c = cellUnknown
      · have hset := setCell_of_inBounds (g := g.occupancyGrid) 0 hb
        have hbd : g.deltaOccupancyGrid.inBounds p.1 p.2 :=
          inBounds_of_dims hwf.2.2.2.1 hwf.2.2.2.2.1 hb
        have hbs : g.showDeltaOccupancyGrid.inBounds p.1 p.2 :=
          inBounds_of_dims hwf.2.2.2.2.2.1 hwf.2.2.2.2.2.2 hb
        have hset2 := setCell_of_inBounds (g := g.deltaOccupancyGrid) 1 hbd
        have hset3 := setCell_of_inBounds (g := g.showDeltaOccupancyGrid) 1 hbs
        simp only [rayStep, hget, if_neg h1, if_pos h2, hset, hset2, hset3] at h
        cases h
      · simp only [rayStep, hget, if_neg h1, if_neg h2] at h ⊢
        exact ⟨by trivial, h⟩

/-- In a wellformed grid triple whose main grid evolved from g0 along
cellTransition, a traversal step that reports a change leaves the main
grid different from g0. -/
theorem rayStep_changed_true {g : MapperGrids} {changed : Bool} {p : Int × Int}
    {g0 : List ℚ} (hwf : g.Wellformed)
    (hmono : dataMono g0 g.occupancyGrid.data)
    (hch : changed = true → g.occupancyGrid.data ≠ g0)
    (h : (rayStep g changed p).2.1 = true) :
    (rayStep g changed p).1.occupancyGrid.data ≠ g0 := by
  rcases hget : g.occupancyGrid.getCell p.1 p.2 with u | c
  · simp only [rayStep, hget] at h ⊢
    exact hch h
  · have hb : g.occupancyGrid.inBounds p.1 p.2 := (getCell_ok hget).1
    have hlt : g.occupancyGrid.cellIndex p.1 p.2 < g.occupancyGrid.data.length :=
      cellIndex_lt hwf.1 hb
    by_cases h1 : c > cellUnknown
    · simp only [rayStep, hget, if_pos h1] at h ⊢
      exact hch h
    · by_cases h2 : c = cellUnknown
      · have hset := setCell_of_inBounds (g := g.occupancyGrid) 0 hb
        have hbd : g.deltaOccupancyGrid.inBounds p.1 p.2 :=
          inBounds_of_dims hwf.2.2.2.1 hwf.2.2.2.2.1 hb
        have hbs : g.showDeltaOccupancyGrid.inBounds p.1 p.2 :=
          inBounds_of_dims hwf.2.2.2.2.2.1 hwf.2.2.2.2.2.2 hb
        have hset2 := setCell_of_inBounds (g := g.deltaOccupancyGrid) 1 hbd
        have hset3 := setCell_of_inBounds (g := g.showDeltaOccupancyGrid) 1 hbs
        simp only [rayStep, hget, if_neg h1, if_pos h2, hset, hset2, hset3]
        intro hEq
        have hcur : g.occupancyGrid.data.getD (g.occupancyGrid.cellIndex p.1 p.2) 0
            = cellUnknown := by
          rw [← (getCell_ok hget).2]
          exact h2
        have horig : g0.getD (g.occupancyGrid.cellIndex p.1 p.2) 0 = cellUnknown :=
          cellTransition_unknown_back
            (by
              have := hmono.2 (g.occupancyGrid.cellIndex p.1 p.2)
              rwa [hcur] at this)
            rfl
        have hnew : (g.occupancyGrid.data.set (g.occupancyGrid.cellIndex p.1 p.2) 0).getD
            (g.occupancyGrid.cellIndex p.1 p.2) 0 = 0 := by
          rw [getD_set, if_pos ⟨rfl, hlt⟩]
        rw [hEq, horig] at hnew
        exact absurd hnew (by decide)
      · simp only [rayStep, hget, if_neg h1, if_neg h2] at h ⊢
        exact hch h

/-- In a wellformed grid triple, an end-cell marking that neither aborts
nor reports a change did not touch the main grid, and the incoming flag
was already false. -/
theorem markEnd_changed_false {g : MapperGrids} {changed : Bool} {p : Int × Int}
    (hwf : g.Wellformed) (hnoerr : (markEnd g changed p).2.2 = false)
    (h : (markEnd g changed p).2.1 = false) :
    (markEnd g changed p).1.occupancyGrid = g.occupancyGrid ∧ changed = false := by
  rcases hget : g.occupancyGrid.getCell p.1 p.2 with u | c
  · simp only [markEnd, hget] at hnoerr
    cases hnoerr
  · have hb : g.occupancyGrid.inBounds p.1 p.2 := (getCell_ok hget).1
    by_cases h1 : c < 1
    · have hset := setCell_of_inBounds (g := g.occupancyGrid) 1 hb
      have hbd : g.deltaOccupancyGrid.inBounds p.1 p.2 :=
        inBounds_of_dims hwf.2.2.2.1 hwf.2.2.2.2.1 hb
      have hbs : g.showDeltaOccupancyGrid.inBounds p.1 p.2 :=
        inBounds_of_dims hwf.2.2.2.2.2.1 hwf.2.2.2.2.2.2 hb
      have hset2 := setCell_of_inBounds (g := g.deltaOccupancyGrid) 1 hbd
      have hset3 := setCell_of_inBounds (g := g.showDeltaOccupancyGrid) 1 hbs
      simp only [markEnd, hget, if_pos h1, hset, hset2, hset3] at h
      cases h
    · simp only [markEnd, hget, if_neg h1] at h ⊢
      exact ⟨by trivial, h⟩

/-- In a wellformed grid triple whose main grid evolved from g0 along
cellTransition, an end-cell marking that reports a change leaves the
main grid different from g0. -/
theorem markEnd_changed_true {g : MapperGrids} {changed : Bool} {p : Int × Int}
    {g0 : List ℚ} (hwf : g.Wellformed)
    (hmono : dataMono g0 g.occupancyGrid.data)
    (hch : changed = true → g.occupancyGrid.data ≠ g0)
    (h : (markEnd g changed p).2.1 = true) :
    (markEnd g changed p).1.occupancyGrid.data ≠ g0 := by
  rcases hget : g.occupancyGrid.getCell p.1 p.2 with u | c
  · simp only [markEnd, hget] at h ⊢
    exact hch h
  · have hb : g.occupancyGrid.inBounds p.1 p.2 := (getCell_ok hget).1
    have hlt : g.occupancyGrid.cellIndex p.1 p.2 < g.occupancyGrid.data.length :=
      cellIndex_lt hwf.1 hb
    by_cases h1 : c < 1
    · have hset := setCell_of_inBounds (g := g.occupancyGrid) 1 hb
      have hbd : g.deltaOccupancyGrid.inBounds p.1 p.2 :=
        inBounds_of_dims hwf.2.2.2.1 hwf.2.2.2.2.1 hb
      have hbs : g.showDeltaOccupancyGrid.inBounds p.1 p.2 :=
        inBounds_of_dims hwf.2.2.2.2.2.1 hwf.2.2.2.2.2.2 hb
      have hset2 := setCell_of_inBounds (g := g.deltaOccupancyGrid) 1 hbd
      have hset3 := setCell_of_inBounds (g := g.showDeltaOccupancyGrid) 1 hbs
      simp only [markEnd, hget, if_pos h1, hset, hset2, hset3]
      intro hEq
      have hcur : g.occupancyGrid.data.getD (g.occupancyGrid.cellIndex p.1 p.2) 0 < 1 := by
        rw [← (getCell_ok hget).2]
        exact h1
      have horig : g0.getD (g.occupancyGrid.cellIndex p.1 p.2) 0 < 1 :=
        cellTransition_below_back (hmono.2 (g.occupancyGrid.cellIndex p.1 p.2)) hcur
      have hnew : (g.occupancyGrid.data.set (g.occupancyGrid.cellIndex p.1 p.2) 1).getD
          (g.occupancyGrid.cellIndex p.1 p.2) 0 = 1 := by
        rw [getD_set, if_pos ⟨rfl, hlt⟩]
      rw [hEq] at hnew
      rw [hnew] at horig
      exact absurd horig (by simp)
    · simp only [markEnd, hget, if_neg h1] at h ⊢
      exact hch h

/-- Loop version of the changed-flag characterization for the ray
traversal. -/
theorem traverseRay_changed :
    ∀ (path : List (Int × Int)) (g : MapperGrids) (changed : Bool) (g0 : List ℚ),
    g.Wellformed → dataMono g0 g.occupancyGrid.data →
    (changed = true → g.occupancyGrid.data ≠ g0) →
    (((traverseRay g changed path).2.1 = false →
        (traverseRay g changed path).1.occupancyGrid = g.occupancyGrid ∧ changed = false) ∧
     ((traverseRay g changed path).2.1 = true →
        (traverseRay g changed path).1.occupancyGrid.data ≠ g0)) := by
  intro path
  induction path with
  | nil =>
    intro g changed g0 hwf hmono hch
    exact ⟨fun h => ⟨rfl, h⟩, fun h => hch h⟩
  | cons p rest ih =>
    intro g changed g0 hwf hmono hch
    have hwf' : (rayStep g changed p).1.Wellformed :=
      wellformed_of_shapeEq (rayStep_basic g changed p).1 hwf
    have hmono' : dataMono g0 (rayStep g changed p).1.occupancyGrid.data :=
      dataMono_trans hmono (rayStep_basic g changed p).2.1
    have hch' : (rayStep g changed p).2.1 = true →
        (rayStep g changed p).1.occupancyGrid.data ≠ g0 :=
      fun h => rayStep_changed_true hwf hmono hch h
    cases hbrk : (rayStep g changed p).2.2 with
    | true =>
      simp only [traverseRay, hbrk, if_true]
      exact ⟨fun h => rayStep_changed_false hwf h, fun h => hch' h⟩
    | false =>
      obtain ⟨ifalse, itrue⟩ := ih (rayStep g changed p).1 (rayStep g changed p).2.1 g0
        hwf' hmono' hch'
      simp only [traverseRay, hbrk, Bool.false_eq_true, if_false]
      refine ⟨fun h => ?_, fun h => itrue h⟩
      obtain ⟨heq, hflag⟩ := ifalse h
      obtain ⟨heq2, hflag2⟩ := rayStep_changed_false hwf hflag
      exact ⟨heq.trans heq2, hflag2⟩

/-- Loop version of the changed-flag characterization for whole-ray
processing. -/
theorem processRay_changed (g : MapperGrids) (changed : Bool)
    (between : List (Int × Int)) (rayEndsOnObject : Bool) (g0 : List ℚ)
    (hwf : g.Wellformed) (hmono : dataMono g0 g.occupancyGrid.data)
    (hch : changed = true → g.occupancyGrid.data ≠ g0) :
    (((processRay g changed between rayEndsOnObject).2.2 = false →
      (processRay g changed between rayEndsOnObject).2.1 = false →
        (processRay g changed between rayEndsOnObject).1.occupancyGrid = g.occupancyGrid ∧
        changed = false) ∧
     ((processRay g changed between rayEndsOnObject).2.1 = true →
        (processRay g changed between rayEndsOnObject).1.occupancyGrid.data ≠ g0)) := by
  by_cases hempty : between.isEmpty
  · simp only [processRay, hempty, if_true]
    exact ⟨fun _ h => ⟨by trivial, h⟩, fun h => hch h⟩
  · obtain ⟨tfalse, ttrue⟩ := traverseRay_changed between g changed g0 hwf hmono hch
    have htwf : (traverseRay g changed between).1.Wellformed :=
      wellformed_of_shapeEq (traverseRay_basic between g changed).1 hwf
    have htmono : dataMono g0 (traverseRay g changed between).1.occupancyGrid.data :=
      dataMono_trans hmono (traverseRay_basic between g changed).2.1
    simp only [processRay, hempty, Bool.false_eq_true, if_false]
    cases hcond : ((traverseRay g changed between).2.2 && rayEndsOnObject) with
    | false =>
      simp only [hcond, Bool.false_eq_true, if_false]
      exact ⟨fun _ h => tfalse h, fun h => ttrue h⟩
    | true =>
      simp only [hcond, if_true]
      rcases hlast : between.getLast? with _ | lastPoint
      · exact ⟨fun _ h => tfalse h, fun h => ttrue h⟩
      · refine ⟨fun hnoerr h => ?_, fun h => ?_⟩
        · obtain ⟨meq, mflag⟩ := markEnd_changed_false htwf hnoerr h
          obtain ⟨teq, tflag⟩ := tfalse mflag
          exact ⟨meq.trans teq, tflag⟩
        · exact markEnd_changed_true htwf htmono (fun hh => ttrue hh) h

/-- Loop version of the changed-flag characterization for the ray
loop. -/
theorem parseScanRays_changed (msg : LaserScan) (x y theta : ℝ) :
    ∀ (l : List Nat) (g : MapperGrids) (changed : Bool) (g0 : List ℚ),
    g.Wellformed → dataMono g0 g.occupancyGrid.data →
    (changed = true → g.occupancyGrid.data ≠ g0) →
    (((parseScanRays msg x y theta l g changed).2.2 = false →
      (parseScanRays msg x y theta l g changed).2.1 = false →
        (parseScanRays msg x y theta l g changed).1.occupancyGrid = g.occupancyGrid ∧
        changed = false) ∧
     ((parseScanRays msg x y theta l g changed).2.1 = true →
        (parseScanRays msg x y theta l g changed).1.occupancyGrid.data ≠ g0)) := by
  intro l
  induction l with
  | nil =>
    intro g changed g0 hwf hmono hch
    exact ⟨fun _ h => ⟨rfl, h⟩, fun h => hch h⟩
  | cons ii rest ih =>
    intro g changed g0 hwf hmono hch
    rcases hget : msg.ranges.get? ii with _ | detectedRange
    · simp only [parseScanRays, hget]
      exact ⟨fun _ h => ⟨by trivial, h⟩, fun h => hch h⟩
    · by_cases hmin : detectedRange ≤ msg.range_min
      · simp only [parseScanRays, hget, if_pos hmin]
        exact ih g changed g0 hwf hmono hch
      · simp only [parseScanRays, hget, if_neg hmin]
        obtain ⟨pfalse, ptrue⟩ := processRay_changed g changed
          (ray_trace g.occupancyGrid
            (if detectedRange ≥ msg.range_max then msg.range_max else detectedRange)
            x y (msg.angle_min + msg.angle_increment * (ii : ℝ) + theta) msg)
          (if detectedRange ≥ msg.range_max then false else true) g0 hwf hmono hch
        have hpbasic := processRay_basic g changed
          (ray_trace g.occupancyGrid
            (if detectedRange ≥ msg.range_max then msg.range_max else detectedRange)
            x y (msg.angle_min + msg.angle_increment * (ii : ℝ) + theta) msg)
          (if detectedRange ≥ msg.range_max then false else true)
        cases habort : (processRay g changed
            (ray_trace g.occupancyGrid
              (if detectedRange ≥ msg.range_max then msg.range_max else detectedRange)
              x y (msg.angle_min + msg.angle_increment * (ii : ℝ) + theta) msg)
            (if detectedRange ≥ msg.range_max then false else true)).2.2 with
        | true =>
          simp only [habort, if_true]
          constructor
          · first
            | exact trivial
            | exact fun hc => absurd hc (by decide)
          · exact fun h => ptrue h
        | false =>
          simp only [habort, Bool.false_eq_true, if_false]
          obtain ⟨ifalse, itrue⟩ := ih _ _ g0
            (wellformed_of_shapeEq hpbasic.1 hwf)
            (dataMono_trans hmono hpbasic.2.1)
            (fun h => ptrue h)
          refine ⟨fun hnoerr h => ?_, fun h => itrue h⟩
          obtain ⟨ieq, iflag⟩ := ifalse hnoerr h
          obtain ⟨peq, pflag⟩ := pfalse habort iflag
          exact ⟨ieq.trans peq, pflag⟩

/-- A completed parseScan call reports false only if it left the main
grid untouched, and true only if it changed it. -/
theorem parseScan_changed_characterization {g g' : MapperGrids} {odom : OdomMsg}
    {twist : TwistMsg} {msg : LaserScan} {b : Bool}
    (hwf : g.Wellformed)
    (h : parseScan g odom twist msg = (g', Except.ok (some b))) :
    (b = false → g'.occupancyGrid = g.occupancyGrid) ∧
    (b = true → g'.occupancyGrid.data ≠ g.occupancyGrid.data) := by
  rcases hp : predictPose odom twist msg.stamp with u | q
  · simp only [parseScan, hp] at h
    exact absurd (congrArg Prod.snd h) (fun hc => by cases hc)
  · obtain ⟨x, y, theta, tooFast⟩ := q
    cases tooFast with
    | true =>
      simp only [parseScan, hp, if_true] at h
      have hx := congrArg Prod.snd h
      simp only at hx
      injection hx with hx2
      cases hx2
    | false =>
      simp only [parseScan, hp, Bool.false_eq_true, if_false] at h
      have hclear : gridsShapeEq g
          { g with deltaOccupancyGrid := g.deltaOccupancyGrid.clearMap 0 } :=
        ⟨sameShape_refl _, (clearMap_shape _ 0).1, sameShape_refl _, rfl,
         (clearMap_shape _ 0).2, rfl⟩
      have hwfc : ({ g with deltaOccupancyGrid := g.deltaOccupancyGrid.clearMap 0 }
          : MapperGrids).Wellformed := wellformed_of_shapeEq hclear hwf
      obtain ⟨cfalse, ctrue⟩ := parseScanRays_changed msg x y theta
        (List.range (⌊(msg.angle_max - msg.angle_min) / msg.angle_increment⌋).toNat)
        { g with deltaOccupancyGrid := g.deltaOccupancyGrid.clearMap 0 } false
        g.occupancyGrid.data hwfc (dataMono_refl _) (fun hc => by cases hc)
      cases habort : (parseScanRays msg x y theta
          (List.range (⌊(msg.angle_max - msg.angle_min) / msg.angle_increment⌋).toNat)
          { g with deltaOccupancyGrid := g.deltaOccupancyGrid.clearMap 0 } false).2.2 with
      | true =>
        rw [habort] at h
        simp only [if_true] at h
        exact absurd (congrArg Prod.snd h) (fun hc => by cases hc)
      | false =>
        rw [habort] at h
        simp only [Bool.false_eq_true, if_false] at h
        have h1 := congrArg Prod.fst h
        have h2 := congrArg Prod.snd h
        simp only at h1 h2
        injection h2 with h2
        injection h2 with h2
        constructor
        · intro hb
          rw [hb] at h2
          obtain ⟨heq, _⟩ := cfalse habort h2
          rw [← h1]
          exact heq
        · intro hb
          rw [hb] at h2
          rw [← h1]
          exact ctrue h2

/-- C1: Monotonic occupancy rule: the only state transitions a parseScan
call performs on any main-grid cell are Unknown (0.5) to Free (0) and
below-Occupied (< 1) to Occupied (1); in particular, over any sequence
of ingested scans, a cell that is Occupied (value 1) is never changed by
any later parseScan call. -/
theorem parseScan_monotonic_occupancy
    (g : MapperGrids) (odom : OdomMsg) (twist : TwistMsg) (msg : LaserScan)
    (scans : List (OdomMsg × TwistMsg × LaserScan)) (i : Nat) :
    cellTransition (g.occupancyGrid.data.getD i 0)
      ((parseScan g odom twist msg).1.occupancyGrid.data.getD i 0) ∧
    (g.occupancyGrid.data.getD i 0 = 1 →
      (ingestAll g scans).occupancyGrid.data.getD i 0 = 1) :=
  ⟨(parseScan_basic g odom twist msg).2.2 i,
   fun h => cellTransition_occupied ((ingestAll_mono scans g).2 i) h⟩

/-- Witness for C1 at a concrete input: a 1 x 1 grid whose cell is
Occupied stays Occupied through the ingestion of a scan. -/
theorem parseScan_monotonic_occupancy_witness :
    occupiedGrids.occupancyGrid.data.getD 0 0 = 1 ∧
    cellTransition (occupiedGrids.occupancyGrid.data.getD 0 0)
      ((parseScan occupiedGrids scenarioOdom stoppedTwist
        emptyScan).1.occupancyGrid.data.getD 0 0) ∧
    (ingestAll occupiedGrids
      [(scenarioOdom, stoppedTwist, emptyScan)]).occupancyGrid.data.getD 0 0 = 1 :=
  ⟨by decide,
   (parseScan_monotonic_occupancy occupiedGrids scenarioOdom stoppedTwist emptyScan
     [(scenarioOdom, stoppedTwist, emptyScan)] 0).1,
   (parseScan_monotonic_occupancy occupiedGrids scenarioOdom stoppedTwist emptyScan
     [(scenarioOdom, stoppedTwist, emptyScan)] 0).2 (by decide)⟩

/-- C9: Idempotence: when a parseScan call runs to completion (returning
gridHasChanged as a Bool), it returns false exactly when it performed no
transition on the main grid, i.e. when the main grid is bit-identical
before and after the call. -/
theorem parseScan_changed_iff_grid_changed {g g' : MapperGrids} {odom : OdomMsg}
    {twist : TwistMsg} {msg : LaserScan} {b : Bool}
    (hwf : g.Wellformed)
    (h : parseScan g odom twist msg = (g', Except.ok (some b))) :
    b = false ↔ g'.occupancyGrid = g.occupancyGrid := by
  obtain ⟨hfalse, htrue⟩ := parseScan_changed_characterization hwf h
  cases b with
  | false => exact ⟨fun _ => hfalse rfl, fun _ => rfl⟩
  | true =>
    constructor
    · intro hc
      cases hc
    · intro heq
      exact absurd (congrArg OccupancyGrid.data heq) (htrue rfl)

/-- Witness for C9 at a concrete input: ingesting a scan with an empty
angle window from a wellformed grid completes with changed = false and
the main grid bit-identical. -/
theorem parseScan_changed_iff_grid_changed_witness :
    smallGrids.Wellformed ∧
    parseScan smallGrids scenarioOdom stoppedTwist emptyScan =
      ({ smallGrids with deltaOccupancyGrid := smallGrids.deltaOccupancyGrid.clearMap 0 },
        Except.ok (some false)) ∧
    (false = false ↔
      ({ smallGrids with deltaOccupancyGrid := smallGrids.deltaOccupancyGrid.clearMap 0 }
        : MapperGrids).occupancyGrid = smallGrids.occupancyGrid) := by
  have hwf : smallGrids.Wellformed := ⟨rfl, rfl, rfl, rfl, rfl, rfl, rfl⟩
  have hp : predictPose scenarioOdom stoppedTwist emptyScan.stamp =
      Except.ok (0, 0, 0, false) := by
    simp [predictPose, scenarioOdom, stoppedTwist, emptyScan]
    norm_num
  have hn : (⌊(emptyScan.angle_max - emptyScan.angle_min) /
      emptyScan.angle_increment⌋).toNat = 0 := by
    simp [emptyScan]
  have heval : parseScan smallGrids scenarioOdom stoppedTwist emptyScan =
      ({ smallGrids with deltaOccupancyGrid := smallGrids.deltaOccupancyGrid.clearMap 0 },
        Except.ok (some false)) := by
    simp only [parseScan, hp, Bool.false_eq_true, if_false, hn, List.range_zero,
      parseScanRays]
  exact ⟨hwf, heval, parseScan_changed_iff_grid_changed hwf heval⟩


/-- Rounding at the start of the modelled digital line: n / (2n) floors
to 0. -/
theorem ediv_self_two_mul (n : Nat) : Int.ediv (n : Int) (2 * n) = 0 := by
  rcases Nat.eq_zero_or_pos n with h | h
  · subst h
    rfl
  · exact Int.ediv_eq_zero_of_lt (by positivity) (by exact_mod_cast by omega)

/-- Rounding at the end of the modelled digital line: (2nd + n) / (2n)
floors to d. -/
theorem ediv_last_two_mul (n : Nat) (d : Int) (h : 0 < n) :
    Int.ediv (2 * n * d + n) (2 * n) = d := by
  show (2 * (n : Int) * d + n) / (2 * n) = d
  rw [show (2 * (n : Int) * d + n) = n + d * (2 * n) by ring]
  rw [Int.add_mul_ediv_right _ _ (by positivity)]
  rw [Int.ediv_eq_zero_of_lt (by positivity) (by exact_mod_cast by omega)]
  ring

/-- The cell at step 0 of the modelled digital line is the line's first
endpoint. -/
theorem bresenhamCell_zero (a : Int × Int) (dx dy : Int) (n : Nat) :
    bresenhamCell a dx dy n 0 = a := by
  unfold bresenhamCell
  rw [show (2 * ((0 : Nat) : Int) * dx + (n : Int)) = (n : Int) by push_cast; ring]
  rw [show (2 * ((0 : Nat) : Int) * dy + (n : Int)) = (n : Int) by push_cast; ring]
  rw [ediv_self_two_mul]
  simp

/-- The cell at step n of the modelled digital line from a to b (when n
is the step count for that pair) is b. -/
theorem bresenhamCell_last (a b : Int × Int) :
    bresenhamCell a (b.1 - a.1) (b.2 - a.2)
      (max (b.1 - a.1).natAbs (b.2 - a.2).natAbs)
      (max (b.1 - a.1).natAbs (b.2 - a.2).natAbs) = b := by
  rcases Nat.eq_zero_or_pos (max (b.1 - a.1).natAbs (b.2 - a.2).natAbs) with h | h
  · have hdx : (b.1 - a.1).natAbs = 0 := by omega
    have hdy : (b.2 - a.2).natAbs = 0 := by omega
    have hx : b.1 = a.1 := by
      have := Int.natAbs_eq_zero.mp hdx
      omega
    have hy : b.2 = a.2 := by
      have := Int.natAbs_eq_zero.mp hdy
      omega
    rw [h, bresenhamCell_zero]
    exact Prod.ext hx.symm hy.symm
  · unfold bresenhamCell
    rw [show (2 * ((max (b.1 - a.1).natAbs (b.2 - a.2).natAbs : Nat) : Int) * (b.1 - a.1) +
        ((max (b.1 - a.1).natAbs (b.2 - a.2).natAbs : Nat) : Int)) =
        2 * ((max (b.1 - a.1).natAbs (b.2 - a.2).natAbs : Nat) : Int) * (b.1 - a.1) +
        ((max (b.1 - a.1).natAbs (b.2 - a.2).natAbs : Nat) : Int) from rfl]
    rw [ediv_last_two_mul _ _ h, ediv_last_two_mul _ _ h]
    exact Prod.ext (by ring) (by ring)

/-- The modelled digital line is nonempty, starts at its first argument
and ends at its second. -/
theorem bresenhamPath_endpoints (a b : Int × Int) :
    bresenhamPath a b ≠ [] ∧ (bresenhamPath a b).head? = some a ∧
    (bresenhamPath a b).getLast? = some b := by
  refine ⟨?_, ?_, ?_⟩
  · unfold bresenhamPath
    simp [List.range_succ]
  · simp only [bresenhamPath]
    rw [List.range_succ_eq_map]
    simp only [List.map_cons, List.head?_cons, bresenhamCell_zero]
  · simp only [bresenhamPath]
    rw [List.range_succ, List.map_append]
    simp only [List.map_cons, List.map_nil, List.getLast?_concat]
    rw [bresenhamCell_last]

/-- C2: For every ray, the cell path ray_trace returns is ordered from
the near point (offset by range_min from the predicted sensor position)
to the far point (at the detected or clamped range): it is nonempty, its
first element is the cell containing the near point and its last element
(the cell parseScan marks Occupied when traversedToEnd and
rayEndsOnObject hold and its state is below 1) is the cell containing
the ray's far endpoint. -/
theorem ray_trace_ordered_near_to_far (grid : OccupancyGrid) (dist x y angle : ℝ)
    (scanmsg : LaserScan) :
    ray_trace grid dist x y angle scanmsg ≠ [] ∧
    (ray_trace grid dist x y angle scanmsg).head? =
      some (grid.getCellCoordinatesFromWorldCoordinates
        (Real.cos angle * scanmsg.range_min + x,
         Real.sin angle * scanmsg.range_min + y)) ∧
    (ray_trace grid dist x y angle scanmsg).getLast? =
      some (grid.getCellCoordinatesFromWorldCoordinates
        (Real.cos angle * dist + x, Real.sin angle * dist + y)) := by
  simp only [ray_trace]
  exact bresenhamPath_endpoints _ _

/-- C4 (code bug): delivering a Twist message through twistCallback has
no effect on pose prediction: the message is stored in the attribute
mostRecentVelocity, while predictPose reads mostRecentTwist, which no
callback ever writes; concretely, after twistCallback delivers the
5 m/s fastTwist to a freshly constructed state, predictPose still uses
the initial zero twist and reports tooFast = false. -/
theorem twistCallback_unread_by_predictPose :
    (∀ (st : MapperNodeState) (m : TwistMsg) (t : ℝ),
      (twistCallback st m).mostRecentVelocity = some m ∧
      (twistCallback st m).mostRecentTwist = st.mostRecentTwist ∧
      predictPose (twistCallback st m).mostRecentOdometry
          (twistCallback st m).mostRecentTwist t
        = predictPose st.mostRecentOdometry st.mostRecentTwist t) ∧
    predictPose scenarioOdom
      (twistCallback ⟨scenarioGrids, scenarioOdom, stoppedTwist, none, false, false,
        true, false⟩ fastTwist).mostRecentTwist 0 = Except.ok (0, 0, 0, false) := by
  constructor
  · intro st m t
    exact ⟨rfl, rfl, rfl⟩
  · show predictPose scenarioOdom stoppedTwist 0 = Except.ok (0, 0, 0, false)
    simp [predictPose, scenarioOdom, stoppedTwist]
    norm_num

/-- C5 (code bug): when the twist snapshot's angular velocity is at
least 1e-6 in absolute value, predictPose does not compute the
constant-curvature closed form: the arc branch references the unbound
names sin and cos and raises a NameError (modelled as an error value),
shown here at linear velocity 1, angular velocity 1, pose (0,0,0). -/
theorem predictPose_arc_branch_raises :
    predictPose scenarioOdom turningTwist 0 = Except.error () := by
  simp [predictPose, scenarioOdom, turningTwist]
  norm_num

/-- C6 (code bug): the rejected (tooFast) flag is |v| > 4 only on the
straight-line branch: with angular velocity 1 and linear velocity 5 the
call raises instead of returning rejected = true, while with angular
velocity 0 it returns rejected = true at v = 5.0 and rejected = false at
v = 3.9. -/
theorem predictPose_tooFast_threshold_eval :
    predictPose scenarioOdom fastTurningTwist 0 = Except.error () ∧
    predictPose scenarioOdom fastTwist 0 = Except.ok (0, 0, 0, true) ∧
    predictPose scenarioOdom slowTwist 0 = Except.ok (0, 0, 0, false) := by
  refine ⟨?_, ?_, ?_⟩
  · simp [predictPose, scenarioOdom, fastTurningTwist]
    norm_num
  · simp [predictPose, scenarioOdom, fastTwist]
    norm_num
  · simp [predictPose, scenarioOdom, slowTwist]
    norm_num
    rw [abs_of_nonneg (by norm_num : (0:ℝ) ≤ 39/10)]
    norm_num

/-- C10: when mapping is disabled, or no odometry message has been
received yet, or no twist message has been received yet,
laserScanCallback returns immediately: the whole node state (grids and
visualization flag included) is unchanged and nothing is published. -/
theorem laserScanCallback_gated_noop (st : MapperNodeState) (msg : LaserScan)
    (h : st.enableMapping = false ∨ st.noOdometryReceived = true ∨
         st.noTwistReceived = true) :
    laserScanCallback st msg = (st, none) := by
  by_cases he : st.enableMapping = false
  · simp [laserScanCallback, he]
  · rcases h with h | h | h
    · exact absurd h he
    · simp [laserScanCallback, he, h]
    · simp [laserScanCallback, he, h]

/-- Witness for C10 at a concrete input: a state that has odometry and
twist outstanding is left untouched by a scan. -/
theorem laserScanCallback_gated_noop_witness :
    (ungatedlessState.enableMapping = false ∨
     ungatedlessState.noOdometryReceived = true ∨
     ungatedlessState.noTwistReceived = true) ∧
    laserScanCallback ungatedlessState outOfRangeScan = (ungatedlessState, none) :=
  ⟨Or.inr (Or.inl rfl),
   laserScanCallback_gated_noop ungatedlessState outOfRangeScan (Or.inr (Or.inl rfl))⟩

/-- C3 (code bug): for a scan whose prediction reports tooFast,
parseScan takes the bare return (None, not False) and leaves every grid
untouched, but laserScanCallback's `gridHasChanged is False` test does
not catch None, so the callback falls through, sets the visualization
flag and publishes a MapUpdate (carrying the untouched grid and the
stale delta of the previous scan) instead of discarding the scan
silently. -/
theorem laserScanCallback_publishes_despite_tooFast :
    parseScan fastState.grids fastState.mostRecentOdometry fastState.mostRecentTwist
        outOfRangeScan = (fastState.grids, Except.ok none) ∧
    (laserScanCallback fastState outOfRangeScan).1.grids = fastState.grids ∧
    (laserScanCallback fastState outOfRangeScan).2 ≠ none := by
  have hp : predictPose scenarioOdom fastTwist outOfRangeScan.stamp =
      Except.ok (0, 0, 0, true) := by
    simp [predictPose, scenarioOdom, fastTwist, outOfRangeScan]
    norm_num
  have hps : parseScan smallGrids scenarioOdom fastTwist outOfRangeScan =
      (smallGrids, Except.ok none) := by
    simp only [parseScan, hp, if_true]
  have hcall : laserScanCallback fastState outOfRangeScan =
      ({ fastState with grids := smallGrids, updateVisualisation := true },
       some { scale := smallGrids.occupancyGrid.scale,
              extentInCells := (smallGrids.occupancyGrid.widthInCells,
                                smallGrids.occupancyGrid.heightInCells),
              occupancyGrid := smallGrids.occupancyGrid,
              deltaOccupancyGrid := smallGrids.deltaOccupancyGrid }) := by
    simp only [laserScanCallback,
      show fastState.enableMapping = true from rfl,
      show fastState.noOdometryReceived = false from rfl,
      show fastState.noTwistReceived = false from rfl,
      show fastState.grids = smallGrids from rfl,
      show fastState.mostRecentOdometry = scenarioOdom from rfl,
      show fastState.mostRecentTwist = fastTwist from rfl,
      hps, Bool.true_eq_false, if_false, Bool.or_self, Bool.false_eq_true,
      reduceCtorEq, Option.some.injEq, if_neg]
  exact ⟨hps, by rw [hcall]; rfl, by rw [hcall]; exact fun hc => by cases hc⟩

/-- C7 counterexample: a scan can abort with an uncaught error.  On a
2 x 2 all-Unknown grid, a ray of detected range 5 (below range_max) is
traversed to the end (its out-of-bounds cells are skipped by the
per-cell handler), and the final occupied-marking step then calls
getCell on the out-of-bounds end cell (5, 0) outside any try/except, so
parseScan ends in an uncaught IndexError. -/
theorem parseScan_aborts_on_unguarded_end_cell :
    (parseScan smallGrids scenarioOdom stoppedTwist outOfRangeScan).2 =
      Except.error () := by
  have hp : predictPose scenarioOdom stoppedTwist outOfRangeScan.stamp =
      Except.ok (0, 0, 0, false) := by
    simp [predictPose, scenarioOdom, stoppedTwist, outOfRangeScan]
    norm_num
  have hn : (⌊(outOfRangeScan.angle_max - outOfRangeScan.angle_min) /
      outOfRangeScan.angle_increment⌋).toNat = 1 := by
    simp [outOfRangeScan]
  have hr1 : List.range 1 = [0] := rfl
  have hget : outOfRangeScan.ranges.get? 0 = some 5 := rfl
  have hc1 : ¬((5:ℝ) ≤ outOfRangeScan.range_min) := by norm_num [outOfRangeScan]
  have hc2 : ¬((5:ℝ) ≥ outOfRangeScan.range_max) := by norm_num [outOfRangeScan]
  have hang : outOfRangeScan.angle_min + outOfRangeScan.angle_increment * ((0:Nat) : ℝ) + 0
      = 0 := by
    norm_num [outOfRangeScan]
  have hocc : smallGrids.occupancyGrid = smallMainGrid := rfl
  have hray : ray_trace smallMainGrid 5 0 0 0 outOfRangeScan =
      [(0,0),(1,0),(2,0),(3,0),(4,0),(5,0)] := by
    simp [ray_trace, OccupancyGrid.getCellCoordinatesFromWorldCoordinates,
      smallMainGrid, outOfRangeScan]
    norm_num
    decide
  simp only [parseScan, hp, Bool.false_eq_true, if_false, hn, hr1, parseScanRays,
    hget, hocc, hc1, hc2, hang, hray]
  decide

/-- C7 amended: a bounds failure on an individual cell inside the
traversal loop is caught and only that cell is skipped (the loop
continues on the remaining path), but the final occupied-marking step is
unguarded: a bounds failure on the path's end cell there raises an
uncaught error, which aborts the whole scan. -/
theorem traversal_skips_cell_but_marking_aborts
    (g : MapperGrids) (changed : Bool) (p : Int × Int) (rest : List (Int × Int))
    (herr : g.occupancyGrid.getCell p.1 p.2 = Except.error ()) :
    traverseRay g changed (p :: rest) = traverseRay g changed rest ∧
    markEnd g changed p = (g, changed, true) := by
  constructor
  · simp only [traverseRay, rayStep, herr, Bool.false_eq_true, if_false]
  · simp only [markEnd, herr]

/-- Witness for the amended C7 at a concrete input: on the 2 x 2 grid,
cell (5, 0) is out of bounds; the traversal loop skips it, the marking
step aborts on it. -/
theorem traversal_skips_cell_but_marking_aborts_witness :
    smallGrids.occupancyGrid.getCell 5 0 = Except.error () ∧
    traverseRay smallGrids false [(5, 0)] = traverseRay smallGrids false [] ∧
    markEnd smallGrids false (5, 0) = (smallGrids, false, true) := by
  have herr : smallGrids.occupancyGrid.getCell 5 0 = Except.error () := by decide
  exact ⟨herr,
    (traversal_skips_cell_but_marking_aborts smallGrids false (5, 0) [] herr).1,
    (traversal_skips_cell_but_marking_aborts smallGrids false (5, 0) [] herr).2⟩

/-- C8: end-to-end single-ray scenario.  On the 10 x 10 all-Unknown
grid, ingesting the scan with one valid ray of range 2.0 (below
range_max) at angle 0 from pose (0, 0, 0) returns changed = true, makes
exactly the cells (0,0) and (1,0) (those from range_min = 0.5 up to the
end cell along the ray) Free, makes the cell (2,0) at distance 2.0
Occupied, and the delta grid marks exactly those three cells with 1. -/
theorem parseScan_end_to_end_single_ray :
    (parseScan scenarioGrids scenarioOdom stoppedTwist scenarioScan).2 =
      Except.ok (some true) ∧
    (parseScan scenarioGrids scenarioOdom stoppedTwist scenarioScan).1.occupancyGrid.data
      = (((List.replicate 100 cellUnknown).set 0 0).set 1 0).set 2 1 ∧
    (parseScan scenarioGrids scenarioOdom stoppedTwist
      scenarioScan).1.deltaOccupancyGrid.data
      = (((List.replicate 100 (0:ℚ)).set 0 1).set 1 1).set 2 1 := by
  have hp : predictPose scenarioOdom stoppedTwist scenarioScan.stamp =
      Except.ok (0, 0, 0, false) := by
    simp [predictPose, scenarioOdom, stoppedTwist, scenarioScan]
    norm_num
  have hn : (⌊(scenarioScan.angle_max - scenarioScan.angle_min) /
      scenarioScan.angle_increment⌋).toNat = 1 := by
    simp [scenarioScan]
  have hr1 : List.range 1 = [0] := rfl
  have hget : scenarioScan.ranges.get? 0 = some 2 := rfl
  have hc1 : ¬((2:ℝ) ≤ scenarioScan.range_min) := by norm_num [scenarioScan]
  have hc2 : ¬((2:ℝ) ≥ scenarioScan.range_max) := by norm_num [scenarioScan]
  have hang : scenarioScan.angle_min + scenarioScan.angle_increment * ((0:Nat) : ℝ) + 0
      = 0 := by
    norm_num [scenarioScan]
  have hocc : scenarioGrids.occupancyGrid = scenarioMainGrid := rfl
  have hray : ray_trace scenarioMainGrid 2 0 0 0 scenarioScan = [(0,0),(1,0),(2,0)] := by
    simp [ray_trace, OccupancyGrid.getCellCoordinatesFromWorldCoordinates,
      scenarioMainGrid, scenarioScan]
    norm_num
    decide
  simp only [parseScan, hp, Bool.false_eq_true, if_false, hn, hr1, parseScanRays,
    hget, hocc, hc1, hc2, hang, hray]
  decide
